import Mathlib

/-!
Shallow embedding of the tag-validation core of the repository
`git-action-tag-validate-version`.

Tags are modelled as `List Char` (the character sequence of the JS string).
`parsers/docker.ts` is present in the source and is embedded faithfully below
(`DockerParser`).  The shared base (`base.ts`), the Semver/Calver/DateBased
recognizers and the registry are absent from the source tree (only the Semver
test file and callers are present); they are modelled from the spec, each with
a doc comment saying so.
-/

namespace TagValidate

/-- ASCII digit `[0-9]`, as used by the regex class `\d`. -/
def isDigit (c : Char) : Bool := decide (48 ≤ c.toNat ∧ c.toNat ≤ 57)

/-- ASCII word character `[A-Za-z0-9_]`, as used by the regex class `\w`. -/
def isWordChar (c : Char) : Bool :=
  decide ((65 ≤ c.toNat ∧ c.toNat ≤ 90) ∨ (97 ≤ c.toNat ∧ c.toNat ≤ 122) ∨
    (48 ≤ c.toNat ∧ c.toNat ≤ 57) ∨ c.toNat = 95)

/-- The character class `[\w.-]` (word char, dot, or hyphen) used both for the
remainder of Docker's general tag grammar and for Docker version suffixes. -/
def isTagRestChar (c : Char) : Bool := isWordChar c || c = '.' || c = '-'

/-- ASCII lowercase letter `[a-z]` (helper for reasoning about lowercasing). -/
def isLowerAlpha (c : Char) : Bool := decide (97 ≤ c.toNat ∧ c.toNat ≤ 122)

/-- ASCII lowercasing of one character, the behaviour of JS `toLowerCase` on
the ASCII range (the only range that can affect membership in the all-ASCII
special-tag set). -/
def toLowerChar (c : Char) : Char :=
  if 65 ≤ c.toNat ∧ c.toNat ≤ 90 then Char.ofNat (c.toNat + 32) else c

/-- Numeric value of a digit string (used by the year/month plausibility
heuristics). -/
def natOfDigits (l : List Char) : Nat :=
  l.foldl (fun a c => a * 10 + (c.toNat - 48)) 0

/-- Longest digit prefix of a character list, with the rest (the behaviour of
a greedy `\d+` at the current position; empty first component = no match). -/
def takeDigits : List Char → List Char × List Char
  | [] => ([], [])
  | c :: r =>
    if isDigit c then
      let p := takeDigits r
      (c :: p.1, p.2)
    else ([], c :: r)

/-- The scheme enumeration (`VersionType` in `types.ts`): `SEMVER`, `CALVER`,
`DATE_BASED`, `DOCKER`, plus the request-only `AUTO`. -/
inductive VersionType where
  | semver
  | calver
  | dateBased
  | docker
  | auto
  deriving DecidableEq, Repr

/-- The `VersionInfo` value type: five string fields, absent components are
the empty string. -/
structure VersionInfo where
  major : List Char
  minor : List Char
  patch : List Char
  prerelease : List Char
  build : List Char
  deriving DecidableEq, Repr

/-- The `ParseResult` value type: validity flag, reconstructed (or echoed)
version string, the `VersionInfo` record and the matched format (`none` =
empty format, for failures). -/
structure ParseResult where
  isValid : Bool
  version : List Char
  info : VersionInfo
  format : Option VersionType
  deriving DecidableEq, Repr

/-- The all-empty `VersionInfo`. -/
def emptyInfo : VersionInfo := ⟨[], [], [], [], []⟩

/-- Modelled from the spec: `BaseParser.createFailedResult` (`base.ts` is
absent from the source tree).  Builds a ParseResult with `isValid = false`,
empty format, all-empty VersionInfo, and `version` = the original tag
unchanged (spec section 4.1). -/
def createFailedResult (tag : List Char) : ParseResult :=
  { isValid := false, version := tag, info := emptyInfo, format := none }

/-- Modelled from the spec: `BaseParser.createSuccessResult` (`base.ts` is
absent from the source tree).  Builds a ParseResult with `isValid = true`,
`format` = the recognizer's tag, and `version` = the recognizer's own
`reconstructVersion info tag` (spec section 4.1); the reconstruction hook is
passed explicitly since each recognizer supplies its own. -/
def createSuccessResult (fmt : VersionType)
    (reconstruct : VersionInfo → List Char → List Char)
    (tag : List Char) (info : VersionInfo) : ParseResult :=
  { isValid := true, version := reconstruct info tag, info := info, format := some fmt }

namespace DockerParser

/-- The fixed special-tag set of `docker.ts` (all lowercase). -/
def specialTags : List (List Char) :=
  ["latest".data, "stable".data, "dev".data, "test".data, "prod".data,
   "production".data, "staging".data]

/-- Strip the optional case-insensitive `v` prefix of
`dockerVersionPattern` (`/^v?.../i`). -/
def stripV : List Char → List Char
  | [] => []
  | c :: r => if c = 'v' ∨ c = 'V' then r else c :: r

/-- One optional `(?:\.(\d+))?` group: if the input starts with a dot followed
by at least one digit, consume them and capture the digits; otherwise capture
nothing and leave the input unchanged. -/
def optDotNum (l : List Char) : List Char × List Char :=
  match l with
  | '.' :: r =>
    let p := takeDigits r
    if p.1 = [] then ([], l) else p
  | _ => ([], l)

/-- Anchored match of `dockerVersionPattern`
`/^v?(\d+)(?:\.(\d+))?(?:\.(\d+))?(?:-([\w.-]+))?$/i` from `docker.ts`,
returning the four captures (unmatched groups as the empty string, matching
the JS destructuring defaults). -/
def dockerVersionMatch (tag : List Char) :
    Option (List Char × List Char × List Char × List Char) :=
  let m := takeDigits (stripV tag)
  if m.1 = [] then none
  else
    let n := optDotNum m.2
    let p := optDotNum n.2
    match p.2 with
    | [] => some (m.1, n.1, p.1, [])
    | '-' :: s =>
      if s ≠ [] ∧ s.all isTagRestChar then some (m.1, n.1, p.1, s) else none
    | _ => none

/-- Anchored test of `dockerTagPattern` `/^[A-Za-z0-9_][A-Za-z0-9_.-]{0,127}$/`
from `docker.ts`: 1 to 128 chars, word-char first, `[\w.-]` for the rest.
(`_` is in `[A-Za-z0-9_]`, so the first-char class equals `isWordChar`.) -/
def dockerTagTest (tag : List Char) : Bool :=
  match tag with
  | [] => false
  | c :: rest => isWordChar c && decide (rest.length ≤ 127) && rest.all isTagRestChar

/-- `tag.indexOf('-')`-based root: the characters before the first `-`, or the
whole tag when there is no `-` (the two arms of
`dashIndex === -1 ? originalTag : originalTag.slice(0, dashIndex)`). -/
def rootOf : List Char → List Char
  | [] => []
  | c :: r => if c = '-' then [] else c :: rootOf r

/-- The characters after the first `-`, or `none` when there is no `-`
(`dashIndex === -1`). -/
def afterDash : List Char → Option (List Char)
  | [] => none
  | c :: r => if c = '-' then some r else afterDash r

/-- `DockerParser.canParse` from `docker.ts`: special tag, version-like tag,
or any tag of Docker's general grammar. -/
def canParse (tag : List Char) : Bool :=
  specialTags.contains (tag.map toLowerChar) || (dockerVersionMatch tag).isSome
    || dockerTagTest tag

/-- `DockerParser.reconstructVersion` from `docker.ts`: special tags keep the
original tag; opaque tags (empty `major`) keep the part before the first `-`;
version-like tags are normalized to `major.minor.patch` (patch defaulted to
`0`) with the suffix re-appended from `prerelease`. -/
def reconstructVersion (info : VersionInfo) (originalTag : List Char) : List Char :=
  if specialTags.contains (originalTag.map toLowerChar) then originalTag
  else if info.major = [] then rootOf originalTag
  else
    info.major ++ '.' :: info.minor ++ '.' ::
      (if info.patch = [] then ['0'] else info.patch) ++
      (if info.prerelease = [] then [] else '-' :: info.prerelease)

/-- `DockerParser.parse` from `docker.ts`: special-tag branch, version-like
branch, opaque branch, failure when even the general grammar is violated. -/
def parse (tag : List Char) : ParseResult :=
  if specialTags.contains (tag.map toLowerChar) then
    createSuccessResult .docker reconstructVersion tag
      ⟨[], [], [], [], []⟩
  else
    match dockerVersionMatch tag with
    | none =>
      if ¬ dockerTagTest tag then createFailedResult tag
      else
        createSuccessResult .docker reconstructVersion tag
          ⟨[], [], [], (afterDash tag).getD [], []⟩
    | some (major, minor, patch, suffix) =>
      createSuccessResult .docker reconstructVersion tag
        ⟨major, minor, patch, suffix, []⟩

end DockerParser

/-- The character class of semver prerelease/build identifiers:
alphanumerics and hyphen (`[0-9A-Za-z-]`). -/
def isIdentChar (c : Char) : Bool :=
  decide ((65 ≤ c.toNat ∧ c.toNat ≤ 90) ∨ (97 ≤ c.toNat ∧ c.toNat ≤ 122) ∨
    (48 ≤ c.toNat ∧ c.toNat ≤ 57) ∨ c.toNat = 45)

/-- Split a character list at every dot (`"a.b"` gives `[a, b]`, the empty
list gives one empty segment). -/
def splitDot : List Char → List (List Char)
  | [] => [[]]
  | '.' :: r => [] :: splitDot r
  | c :: r =>
    match splitDot r with
    | s :: ss => (c :: s) :: ss
    | [] => [[c]]

/-- A valid prerelease/build payload: non-empty, and every dot-separated
segment is a non-empty run of `[0-9A-Za-z-]` characters (spec section 4.2:
dot-separated alphanumeric/hyphen identifiers, non-empty; a trailing-dash
payload such as the one in `v1.2.3-` is empty and therefore invalid). -/
def validIdents (s : List Char) : Bool :=
  !s.isEmpty && (splitDot s).all (fun seg => !seg.isEmpty && seg.all isIdentChar)

/-- Split at the first `+` (start of build metadata): the part before it and,
when a `+` is present, the part after it. -/
def splitAtPlus : List Char → List Char × Option (List Char)
  | [] => ([], none)
  | '+' :: r => ([], some r)
  | c :: r =>
    let p := splitAtPlus r
    (c :: p.1, p.2)

/-- Modelled from the spec: the common dotted-numeric grammar that the Semver
and Calver recognizers share (`semver.ts` and `calver.ts` are absent from the
source tree; spec sections 4.2 and 4.3 — optional leading `v`, one to three
dot-separated digit runs, optional `-PRERELEASE` and `+BUILD` suffixes with
validated identifier payloads).  Returns `(hasV, parts, prerelease, build)`
with absent suffixes as the empty string, or `none` when the tag does not fit
the grammar. -/
def parseDotted (tag : List Char) :
    Option (Bool × List (List Char) × List Char × List Char) :=
  let s := match tag with
    | 'v' :: r => (true, r)
    | l => (false, l)
  let m := takeDigits s.2
  if m.1 = [] then none
  else
    let n := DockerParser.optDotNum m.2
    let p := DockerParser.optDotNum n.2
    let parts := m.1 :: (if n.1 = [] then [] else [n.1]) ++ (if p.1 = [] then [] else [p.1])
    match p.2 with
    | [] => some (s.1, parts, [], [])
    | '-' :: r =>
      let q := splitAtPlus r
      if validIdents q.1 then
        match q.2 with
        | none => some (s.1, parts, q.1, [])
        | some b => if validIdents b then some (s.1, parts, q.1, b) else none
      else none
    | '+' :: r => if validIdents r then some (s.1, parts, [], r) else none
    | _ => none

/-- Modelled from the spec: the named year-plausibility threshold for 2-digit
calver years (spec sections 4.2 and 9: an implementation constant; the test
file only pins `24` as plausible, `20` is chosen as the named value). -/
def calverYearThreshold : Nat := 20

/-- Modelled from the spec: a digit run is a plausible calendar year when it
is four digits in the modern range 2000–2099, or two digits at or above the
named threshold (spec sections 4.2 and 4.3). -/
def plausibleYear (y : List Char) : Bool :=
  (decide (y.length = 4) && decide (2000 ≤ natOfDigits y) && decide (natOfDigits y ≤ 2099))
    || (decide (y.length = 2) && decide (calverYearThreshold ≤ natOfDigits y))

/-- Modelled from the spec: a plausible month group, value 01–12 with at most
two digits (spec section 4.3). -/
def plausibleMonth (m : List Char) : Bool :=
  decide (1 ≤ natOfDigits m) && decide (natOfDigits m ≤ 12) && decide (m.length ≤ 2)

/-- Modelled from the spec: the calver-shape predicate on the dotted numeric
parts — two or three parts, first plausibly a year, and (for 2-digit years)
second plausibly a month.  Used positively by the Calver recognizer and
negatively by the Semver recognizer's disambiguation rule (spec sections 4.2
and 4.3; the Semver test file pins `24.01`, `2024.01`, `24.01.15` and
`2024.01.15` as calver-ambiguous). -/
def calverLike (parts : List (List Char)) : Bool :=
  match parts with
  | [y, m] => plausibleYear y && (!decide (y.length = 2) || plausibleMonth m)
  | [y, m, _] => plausibleYear y && (!decide (y.length = 2) || plausibleMonth m)
  | _ => false

/-- The tag fits the shared dotted-numeric grammar with exactly two numeric
parts — the semver-calver ambiguity zone of spec section 4.2 (tags such as
`24.01` that both coarse grammars accept). -/
def twoNumericParts (tag : List Char) : Bool :=
  match parseDotted tag with
  | some (_, parts, _, _) => decide (parts.length = 2)
  | none => false

namespace SemverParser

/-- Modelled from the spec: `SemverParser.canParse` (`semver.ts` absent from
the source tree).  Two or three dotted numeric parts with valid optional
suffixes, and not calver-ambiguous (spec section 4.2). -/
def canParse (tag : List Char) : Bool :=
  match parseDotted tag with
  | some (_, parts, _, _) =>
    (decide (parts.length = 2) || decide (parts.length = 3)) && !calverLike parts
  | none => false

/-- Modelled from the spec: semver reconstruction is shape-preserving — it
re-emits the matched groups exactly, keeping the original tag's `v` prefix
decision (spec section 4.2). -/
def reconstructVersion (info : VersionInfo) (originalTag : List Char) : List Char :=
  (match originalTag with
    | 'v' :: _ => ['v']
    | _ => []) ++
  info.major ++ '.' :: info.minor ++
  (if info.patch = [] then [] else '.' :: info.patch) ++
  (if info.prerelease = [] then [] else '-' :: info.prerelease) ++
  (if info.build = [] then [] else '+' :: info.build)

/-- Modelled from the spec: `SemverParser.parse` (`semver.ts` absent from the
source tree).  Succeeds exactly on the tags its `canParse` accepts, with the
captured groups as fields; otherwise the shared failure result. -/
def parse (tag : List Char) : ParseResult :=
  match parseDotted tag with
  | some (_, [ma, mi], pre, build) =>
    if calverLike [ma, mi] then createFailedResult tag
    else createSuccessResult .semver reconstructVersion tag ⟨ma, mi, [], pre, build⟩
  | some (_, [ma, mi, pa], pre, build) =>
    if calverLike [ma, mi, pa] then createFailedResult tag
    else createSuccessResult .semver reconstructVersion tag ⟨ma, mi, pa, pre, build⟩
  | _ => createFailedResult tag

end SemverParser

namespace CalverParser

/-- Modelled from the spec: `CalverParser.canParse` (`calver.ts` absent from
the source tree).  The shared dotted grammar with the calver-shape predicate
holding on the parts (spec section 4.3). -/
def canParse (tag : List Char) : Bool :=
  match parseDotted tag with
  | some (_, parts, _, _) => calverLike parts
  | none => false

/-- Modelled from the spec: calver reconstruction mirrors semver's
suffix-preserving approach and re-emits the year/month/day positions as
captured (spec section 4.3). -/
def reconstructVersion (info : VersionInfo) (originalTag : List Char) : List Char :=
  SemverParser.reconstructVersion info originalTag

/-- Modelled from the spec: `CalverParser.parse` (`calver.ts` absent from the
source tree).  On success `major` = year, `minor` = month, `patch` = day
(empty when absent) (spec section 4.3). -/
def parse (tag : List Char) : ParseResult :=
  match parseDotted tag with
  | some (_, [y, m], pre, build) =>
    if calverLike [y, m] then
      createSuccessResult .calver reconstructVersion tag ⟨y, m, [], pre, build⟩
    else createFailedResult tag
  | some (_, [y, m, d], pre, build) =>
    if calverLike [y, m, d] then
      createSuccessResult .calver reconstructVersion tag ⟨y, m, d, pre, build⟩
    else createFailedResult tag
  | _ => createFailedResult tag

end CalverParser

namespace DateBasedParser

/-- Modelled from the spec: `DateBasedParser.canParse` (the date-based
recognizer is absent from the source tree).  Compact date-shaped digit runs
`YYYYMMDD` (spec section 4.4): eight digits with no separators. -/
def canParse (tag : List Char) : Bool :=
  decide (tag.length = 8) && tag.all isDigit

/-- Modelled from the spec: `DateBasedParser.parse` (absent from the source
tree).  `major` = year, `minor` = month, `patch` = day, version re-emitted as
the original compact digit run (spec section 4.4). -/
def parse (tag : List Char) : ParseResult :=
  if canParse tag then
    createSuccessResult .dateBased (fun _ orig => orig) tag
      ⟨tag.take 4, (tag.drop 4).take 2, tag.drop 6, [], []⟩
  else createFailedResult tag

end DateBasedParser

namespace ParserRegistry

/-- Modelled from the spec: the registry/dispatcher (`parsers/index.ts` is
absent from the source tree; spec section 4.6).  A concrete scheme dispatches
to that recognizer only; AUTO probes `canParse` in the fixed priority order
Semver, Calver, DateBased, Docker and runs the first acceptor's `parse`;
when none accepts, the failure result echoes the original tag. -/
def parse (tag : List Char) : VersionType → ParseResult
  | .semver => SemverParser.parse tag
  | .calver => CalverParser.parse tag
  | .dateBased => DateBasedParser.parse tag
  | .docker => DockerParser.parse tag
  | .auto =>
    if SemverParser.canParse tag then SemverParser.parse tag
    else if CalverParser.canParse tag then CalverParser.parse tag
    else if DateBasedParser.canParse tag then DateBasedParser.parse tag
    else if DockerParser.canParse tag then DockerParser.parse tag
    else createFailedResult tag

end ParserRegistry

example : DockerParser.parse "latest".data =
    { isValid := true, version := "latest".data, info := emptyInfo,
      format := some .docker } := by decide

example : DockerParser.parse "v1.2-alpine".data =
    { isValid := true, version := "1.2.0-alpine".data,
      info := ⟨"1".data, "2".data, [], "alpine".data, []⟩,
      format := some .docker } := by decide

example : DockerParser.parse "my-custom-tag-v2".data =
    { isValid := true, version := "my".data,
      info := ⟨[], [], [], "custom-tag-v2".data, []⟩,
      format := some .docker } := by decide

example : DockerParser.parse "v1".data =
    { isValid := true, version := "1..0".data,
      info := ⟨"1".data, [], [], [], []⟩,
      format := some .docker } := by decide

example : DockerParser.parse "v1.2.3-".data =
    { isValid := true, version := "v1.2.3".data, info := emptyInfo,
      format := some .docker } := by decide

example : DockerParser.parse "é".data = createFailedResult "é".data := by decide

-- Expectations of the Semver test file present in the source tree.
example : SemverParser.canParse "v1.2.3".data = true := by decide
example : SemverParser.canParse "1.2.3".data = true := by decide
example : SemverParser.canParse "v1.2".data = true := by decide
example : SemverParser.canParse "v1.2.3-alpha.1".data = true := by decide
example : SemverParser.canParse "1.2.3-beta.2".data = true := by decide
example : SemverParser.canParse "v1.2-alpha.1".data = true := by decide
example : SemverParser.canParse "v1.2.3+build.1".data = true := by decide
example : SemverParser.canParse "1.2.3+20240115".data = true := by decide
example : SemverParser.canParse "v1.2.3-alpha.1+build.1".data = true := by decide
example : SemverParser.canParse "v1".data = false := by decide
example : SemverParser.canParse "1".data = false := by decide
example : SemverParser.canParse "abc".data = false := by decide
example : SemverParser.canParse "v1.2.3-".data = false := by decide
example : SemverParser.canParse "2024.01.15".data = false := by decide
example : SemverParser.canParse "24.01.15".data = false := by decide
example : SemverParser.canParse "2024.01".data = false := by decide
example : SemverParser.canParse "24.01".data = false := by decide
example : (SemverParser.parse "3.23-d34fa4d2-ls4".data).isValid = true := by decide
example : (SemverParser.parse "3.23-d34fa4d2-ls4".data).info.prerelease
    = "d34fa4d2-ls4".data := by decide

-- AUTO scenarios.
example : (ParserRegistry.parse "v1.2.3".data .auto).format = some .semver := by decide
example : (ParserRegistry.parse "2024.01.15".data .auto).format = some .calver := by decide
example : (ParserRegistry.parse "24.01".data .auto).format = some .calver := by decide
example : ParserRegistry.parse "v1".data .auto =
    { isValid := true, version := "1..0".data,
      info := ⟨"1".data, [], [], [], []⟩, format := some .docker } := by decide
example : ParserRegistry.parse "v1.2.3-".data .auto =
    { isValid := true, version := "v1.2.3".data, info := emptyInfo,
      format := some .docker } := by decide
example : (ParserRegistry.parse "20240115".data .auto).format = some .dateBased := by decide

/-! Helper lemmas (shared infrastructure, not claim theorems). -/

theorem isWordChar_of_lower (c : Char)
    (h : isLowerAlpha (toLowerChar c) = true) : isWordChar c = true := by
  unfold toLowerChar at h
  by_cases hc : 65 ≤ c.toNat ∧ c.toNat ≤ 90
  · simp only [isWordChar, decide_eq_true_eq]
    omega
  · rw [if_neg hc] at h
    simp only [isLowerAlpha, decide_eq_true_eq] at h
    simp only [isWordChar, decide_eq_true_eq]
    omega

theorem mem_specialTags (x : List Char)
    (h : DockerParser.specialTags.contains x = true) :
    x = "latest".data ∨ x = "stable".data ∨ x = "dev".data ∨ x = "test".data ∨
    x = "prod".data ∨ x = "production".data ∨ x = "staging".data := by
  simp [DockerParser.specialTags, List.contains] at h
  tauto

theorem tagTest_of_map_eq (tag s : List Char)
    (h : tag.map toLowerChar = s) (hs : s.all isLowerAlpha = true)
    (hlen : s.length ≤ 128) (hne : s ≠ []) :
    DockerParser.dockerTagTest tag = true := by
  cases tag with
  | nil =>
    simp only [List.map_nil] at h
    exact (hne h.symm).elim
  | cons c rest =>
    subst h
    simp only [List.map_cons, List.all_cons, Bool.and_eq_true] at hs
    obtain ⟨h1, h2⟩ := hs
    unfold DockerParser.dockerTagTest
    simp only [Bool.and_eq_true]
    refine ⟨⟨isWordChar_of_lower c h1, ?_⟩, ?_⟩
    · simp only [List.map_cons, List.length_cons, List.length_map] at hlen ⊢
      simp only [decide_eq_true_eq]
      omega
    · rw [List.all_map] at h2
      refine List.all_eq_true.2 fun x hx => ?_
      have hx2 := List.all_eq_true.1 h2 x hx
      simp only [Function.comp_apply] at hx2
      unfold isTagRestChar
      simp [isWordChar_of_lower x hx2]

theorem dockerTagTest_of_special (tag : List Char)
    (h : DockerParser.specialTags.contains (tag.map toLowerChar) = true) :
    DockerParser.dockerTagTest tag = true := by
  rcases mem_specialTags _ h with e | e | e | e | e | e | e <;>
    exact tagTest_of_map_eq tag _ e (by decide) (by decide) (by decide)

theorem versionMatch_none_of_head (c : Char) (rest : List Char) (d : Char)
    (hd : toLowerChar c = d) (hv : d ≠ 'v') (hdig : isDigit d = false) :
    DockerParser.dockerVersionMatch (c :: rest) = none := by
  have hcv : ¬(c = 'v' ∨ c = 'V') := by
    rintro (e | e) <;> subst e
    · rw [show toLowerChar 'v' = 'v' from by decide] at hd
      exact hv hd.symm
    · rw [show toLowerChar 'V' = 'v' from by decide] at hd
      exact hv hd.symm
  have hdc : isDigit c = false := by
    by_cases hdc2 : isDigit c = true
    · have hrange : ¬(65 ≤ c.toNat ∧ c.toNat ≤ 90) := by
        simp only [isDigit, decide_eq_true_eq] at hdc2
        omega
      rw [toLowerChar, if_neg hrange] at hd
      subst hd
      rw [hdc2] at hdig
      cases hdig
    · simpa using hdc2
  simp only [DockerParser.dockerVersionMatch, DockerParser.stripV]
  rw [if_neg hcv]
  simp only [takeDigits]
  rw [hdc]
  simp

theorem versionMatch_none_of_map_eq (tag : List Char) (d : Char) (rest : List Char)
    (h : tag.map toLowerChar = d :: rest) (hv : d ≠ 'v') (hdig : isDigit d = false) :
    DockerParser.dockerVersionMatch tag = none := by
  cases tag with
  | nil => simp at h
  | cons c r =>
    simp only [List.map_cons, List.cons.injEq] at h
    exact versionMatch_none_of_head c r d h.1 hv hdig

theorem dockerVersionMatch_of_special (tag : List Char)
    (h : DockerParser.specialTags.contains (tag.map toLowerChar) = true) :
    DockerParser.dockerVersionMatch tag = none := by
  rcases mem_specialTags _ h with e | e | e | e | e | e | e
  · exact versionMatch_none_of_map_eq tag 'l' "atest".data (by rw [e])
      (by decide) (by decide)
  · exact versionMatch_none_of_map_eq tag 's' "table".data (by rw [e])
      (by decide) (by decide)
  · exact versionMatch_none_of_map_eq tag 'd' "ev".data (by rw [e])
      (by decide) (by decide)
  · exact versionMatch_none_of_map_eq tag 't' "est".data (by rw [e])
      (by decide) (by decide)
  · exact versionMatch_none_of_map_eq tag 'p' "rod".data (by rw [e])
      (by decide) (by decide)
  · exact versionMatch_none_of_map_eq tag 'p' "roduction".data (by rw [e])
      (by decide) (by decide)
  · exact versionMatch_none_of_map_eq tag 's' "taging".data (by rw [e])
      (by decide) (by decide)

theorem dockerVersionMatch_major_ne_nil (tag ma mi pa su : List Char)
    (h : DockerParser.dockerVersionMatch tag = some (ma, mi, pa, su)) : ma ≠ [] := by
  unfold DockerParser.dockerVersionMatch at h
  by_cases h0 : (takeDigits (DockerParser.stripV tag)).1 = []
  · rw [if_pos h0] at h
    cases h
  · rw [if_neg h0] at h
    intro hnil
    apply h0
    dsimp only at h
    split at h
    · simp only [Option.some.injEq, Prod.mk.injEq] at h
      rw [h.1, hnil]
    · split at h
      · simp only [Option.some.injEq, Prod.mk.injEq] at h
        rw [h.1, hnil]
      · cases h
    · cases h

theorem docker_parse_cases (tag : List Char) :
    DockerParser.parse tag = createFailedResult tag ∨
    (DockerParser.parse tag).isValid = true := by
  unfold DockerParser.parse
  split
  · right; rfl
  · split
    · split
      · left; rfl
      · right; rfl
    · right; rfl

theorem semver_parse_cases (tag : List Char) :
    SemverParser.parse tag = createFailedResult tag ∨
    (SemverParser.parse tag).isValid = true := by
  unfold SemverParser.parse
  split
  · split
    · left; rfl
    · right; rfl
  · split
    · left; rfl
    · right; rfl
  · left; rfl

theorem calver_parse_cases (tag : List Char) :
    CalverParser.parse tag = createFailedResult tag ∨
    (CalverParser.parse tag).isValid = true := by
  unfold CalverParser.parse
  split
  · split
    · right; rfl
    · left; rfl
  · split
    · right; rfl
    · left; rfl
  · left; rfl

theorem dateBased_parse_cases (tag : List Char) :
    DateBasedParser.parse tag = createFailedResult tag ∨
    (DateBasedParser.parse tag).isValid = true := by
  unfold DateBasedParser.parse
  split
  · right; rfl
  · left; rfl

theorem parse_fail_eq_of_cases {p : ParseResult} {t : List Char}
    (hc : p = createFailedResult t ∨ p.isValid = true)
    (h : p.isValid = false) : p = createFailedResult t := by
  rcases hc with e | hv
  · exact e
  · rw [h] at hv
    cases hv

theorem calver_parse_format (tag : List Char)
    (hc : CalverParser.canParse tag = true) :
    (CalverParser.parse tag).format = some VersionType.calver := by
  unfold CalverParser.canParse at hc
  unfold CalverParser.parse
  split
  · rename_i heq
    rw [heq] at hc
    rw [if_pos (show calverLike _ = true from hc)]
    rfl
  · rename_i heq
    rw [heq] at hc
    rw [if_pos (show calverLike _ = true from hc)]
    rfl
  · rename_i x hne1 hne2
    exfalso
    cases hp : parseDotted tag with
    | none => rw [hp] at hc; cases hc
    | some q =>
      obtain ⟨hv, parts, pre, build⟩ := q
      rw [hp] at hc
      have hcl : calverLike parts = true := hc
      cases parts with
      | nil => simp [calverLike] at hcl
      | cons y rest =>
        cases rest with
        | nil => simp [calverLike] at hcl
        | cons m rest2 =>
          cases rest2 with
          | nil => exact hne1 hv y m pre build hp
          | cons d rest3 =>
            cases rest3 with
            | nil => exact hne2 hv y m d pre build hp
            | cons e rest4 => simp [calverLike] at hcl

/-! Claim theorems. -/

/-- C1 (counterexample): the claim says `parse("v1", AUTO)` is a failure
result, but on the code the Docker recognizer, probed last, accepts `v1` via
its version-like pattern (whose minor and patch groups are optional), so the
result is valid. -/
theorem auto_v1_isValid_true :
    (ParserRegistry.parse "v1".data VersionType.auto).isValid = true := by decide

/-- C1 (amended): `parse("v1", AUTO)` is claimed by the Docker recognizer's
version-like branch: `isValid = true`, `format = DOCKER`, `major = "1"` with
minor and patch empty, and the normalizing reconstruction yields
`version = "1..0"` (patch defaulted to `0`, empty minor kept). -/
theorem auto_v1_claimed_by_docker :
    ParserRegistry.parse "v1".data VersionType.auto =
      { isValid := true, version := "1..0".data,
        info := ⟨"1".data, [], [], [], []⟩,
        format := some VersionType.docker } := by decide

/-- C2: echo-on-failure — for every tag and scheme selector, a failure result
carries the original input verbatim in `version` and leaves every VersionInfo
field empty. -/
theorem failure_echoes_input (t : List Char) (s : VersionType)
    (h : (ParserRegistry.parse t s).isValid = false) :
    (ParserRegistry.parse t s).version = t ∧
    (ParserRegistry.parse t s).info.major = [] ∧
    (ParserRegistry.parse t s).info.minor = [] ∧
    (ParserRegistry.parse t s).info.patch = [] ∧
    (ParserRegistry.parse t s).info.prerelease = [] ∧
    (ParserRegistry.parse t s).info.build = [] := by
  have key : ParserRegistry.parse t s = createFailedResult t := by
    cases s with
    | semver => exact parse_fail_eq_of_cases (semver_parse_cases t) h
    | calver => exact parse_fail_eq_of_cases (calver_parse_cases t) h
    | dateBased => exact parse_fail_eq_of_cases (dateBased_parse_cases t) h
    | docker => exact parse_fail_eq_of_cases (docker_parse_cases t) h
    | auto =>
      unfold ParserRegistry.parse at h ⊢
      by_cases h1 : SemverParser.canParse t = true
      · rw [if_pos h1] at h ⊢
        exact parse_fail_eq_of_cases (semver_parse_cases t) h
      · rw [if_neg h1] at h ⊢
        by_cases h2 : CalverParser.canParse t = true
        · rw [if_pos h2] at h ⊢
          exact parse_fail_eq_of_cases (calver_parse_cases t) h
        · rw [if_neg h2] at h ⊢
          by_cases h3 : DateBasedParser.canParse t = true
          · rw [if_pos h3] at h ⊢
            exact parse_fail_eq_of_cases (dateBased_parse_cases t) h
          · rw [if_neg h3] at h ⊢
            by_cases h4 : DockerParser.canParse t = true
            · rw [if_pos h4] at h ⊢
              exact parse_fail_eq_of_cases (docker_parse_cases t) h
            · rw [if_neg h4]
  rw [key]
  exact ⟨rfl, rfl, rfl, rfl, rfl, rfl⟩

/-- C2 (witness): `parse("!!", AUTO)` fails and echoes the input with all
fields empty. -/
theorem failure_echoes_input_witness :
    (ParserRegistry.parse "!!".data VersionType.auto).isValid = false ∧
    ((ParserRegistry.parse "!!".data VersionType.auto).version = "!!".data ∧
     (ParserRegistry.parse "!!".data VersionType.auto).info.major = [] ∧
     (ParserRegistry.parse "!!".data VersionType.auto).info.minor = [] ∧
     (ParserRegistry.parse "!!".data VersionType.auto).info.patch = [] ∧
     (ParserRegistry.parse "!!".data VersionType.auto).info.prerelease = [] ∧
     (ParserRegistry.parse "!!".data VersionType.auto).info.build = []) :=
  ⟨by decide, failure_echoes_input "!!".data VersionType.auto (by decide)⟩

/-- C3 (counterexample): the claim says `parse("v1.2.3-", AUTO)` is a failure
result, but on the code the Docker recognizer's general tag grammar accepts
`v1.2.3-` (the opaque branch), so the result is valid. -/
theorem auto_trailing_dash_isValid_true :
    (ParserRegistry.parse "v1.2.3-".data VersionType.auto).isValid = true := by decide

/-- C3 (amended): `parse("v1.2.3-", AUTO)` is claimed by the Docker
recognizer's opaque branch: `isValid = true`, `format = DOCKER`, every
VersionInfo field empty (the remainder after the first `-` is empty), and
`version` reconstructed as the root before the first `-`, i.e. `"v1.2.3"`. -/
theorem auto_trailing_dash_claimed_by_docker :
    ParserRegistry.parse "v1.2.3-".data VersionType.auto =
      { isValid := true, version := "v1.2.3".data, info := emptyInfo,
        format := some VersionType.docker } := by decide

set_option maxRecDepth 20000 in
/-- C4 (counterexample): the claim says every tag violating Docker's general
grammar fails, but a 129-character tag that still matches the version-like
pattern (checked first) parses successfully: `"1-" ++ 127 × "a"`. -/
theorem docker_overlength_version_like_succeeds :
    DockerParser.dockerTagTest ('1' :: '-' :: List.replicate 127 'a') = false ∧
    ('1' :: '-' :: List.replicate 127 'a').length = 129 ∧
    (DockerParser.parse ('1' :: '-' :: List.replicate 127 'a')).isValid = true := by
  decide

/-- C4 (amended): for every tag that violates Docker's general tag grammar
and also does not match the version-like pattern (which `parse` tries first),
`DockerParser.parse` fails with `version` echoing the original tag. -/
theorem docker_nongrammar_nonversion_fails (tag : List Char)
    (hg : DockerParser.dockerTagTest tag = false)
    (hv : DockerParser.dockerVersionMatch tag = none) :
    (DockerParser.parse tag).isValid = false ∧
    (DockerParser.parse tag).version = tag := by
  have hs : DockerParser.specialTags.contains (tag.map toLowerChar) = false := by
    by_contra hc
    simp only [Bool.not_eq_false] at hc
    rw [dockerTagTest_of_special tag hc] at hg
    cases hg
  unfold DockerParser.parse
  rw [if_neg (by rw [hs]; simp), hv, if_pos (by rw [hg]; simp)]
  exact ⟨rfl, rfl⟩

/-- C4 (witness): `"!"` violates the general grammar, is not version-like,
and fails with the input echoed. -/
theorem docker_nongrammar_nonversion_fails_witness :
    (DockerParser.dockerTagTest "!".data = false ∧
     DockerParser.dockerVersionMatch "!".data = none) ∧
    ((DockerParser.parse "!".data).isValid = false ∧
     (DockerParser.parse "!".data).version = "!".data) :=
  ⟨⟨by decide, by decide⟩,
   docker_nongrammar_nonversion_fails "!".data (by decide) (by decide)⟩

/-- C6: every version-like tag `v?MAJOR[.MINOR[.PATCH]][-SUFFIX]` parses
under the Docker scheme with the normalizing reconstruction: three dotted
components with absent patch defaulted to `0`, `v` prefix dropped (only the
captured groups are emitted), and `-SUFFIX` appended when present. -/
theorem docker_version_like_normalizing (tag ma mi pa su : List Char)
    (h : DockerParser.dockerVersionMatch tag = some (ma, mi, pa, su)) :
    ParserRegistry.parse tag VersionType.docker =
      { isValid := true,
        version := ma ++ '.' :: mi ++ '.' ::
          (if pa = [] then ['0'] else pa) ++ (if su = [] then [] else '-' :: su),
        info := ⟨ma, mi, pa, su, []⟩,
        format := some VersionType.docker } := by
  have hs : DockerParser.specialTags.contains (tag.map toLowerChar) = false := by
    by_contra hc
    simp only [Bool.not_eq_false] at hc
    rw [dockerVersionMatch_of_special tag hc] at h
    cases h
  have hma : ma ≠ [] := dockerVersionMatch_major_ne_nil tag ma mi pa su h
  show DockerParser.parse tag = _
  unfold DockerParser.parse
  rw [if_neg (by rw [hs]; simp), h]
  show createSuccessResult VersionType.docker DockerParser.reconstructVersion tag
    ⟨ma, mi, pa, su, []⟩ = _
  unfold createSuccessResult DockerParser.reconstructVersion
  dsimp only
  rw [if_neg (by rw [hs]; simp), if_neg hma]

/-- C6 (witness): `parse("v1.2-alpine", DOCKER)` succeeds with
`version = "1.2.0-alpine"` (patch defaulted to `0`, `v` prefix dropped). -/
theorem docker_version_like_normalizing_witness :
    DockerParser.dockerVersionMatch "v1.2-alpine".data =
      some ("1".data, "2".data, [], "alpine".data) ∧
    ParserRegistry.parse "v1.2-alpine".data VersionType.docker =
      { isValid := true, version := "1.2.0-alpine".data,
        info := ⟨"1".data, "2".data, [], "alpine".data, []⟩,
        format := some VersionType.docker } :=
  ⟨by decide,
   (docker_version_like_normalizing "v1.2-alpine".data "1".data "2".data []
      "alpine".data (by decide)).trans (by decide)⟩

/-- C7: every tag whose lowercase form is in the fixed special-tag set parses
under the Docker scheme with `isValid = true`, all VersionInfo fields empty,
and `version` equal to the original tag unchanged (casing preserved). -/
theorem docker_special_tag_success (tag : List Char)
    (h : DockerParser.specialTags.contains (tag.map toLowerChar) = true) :
    ParserRegistry.parse tag VersionType.docker =
      { isValid := true, version := tag, info := emptyInfo,
        format := some VersionType.docker } := by
  show DockerParser.parse tag = _
  unfold DockerParser.parse
  rw [if_pos h]
  unfold createSuccessResult DockerParser.reconstructVersion
  rw [if_pos h]
  rfl

/-- C7 (witness): `parse("LATEST", DOCKER)` succeeds with `version = "LATEST"`
(original casing preserved) and all fields empty. -/
theorem docker_special_tag_success_witness :
    DockerParser.specialTags.contains ("LATEST".data.map toLowerChar) = true ∧
    ParserRegistry.parse "LATEST".data VersionType.docker =
      { isValid := true, version := "LATEST".data, info := emptyInfo,
        format := some VersionType.docker } :=
  ⟨by decide, docker_special_tag_success "LATEST".data (by decide)⟩

/-- C8: every tag of Docker's general grammar that is neither special nor
version-like parses as an opaque tag: numeric fields and build empty,
`version` = the part before the first `-` (the whole tag when no `-`),
`prerelease` = the remainder after the first `-` (empty when no `-`). -/
theorem docker_opaque_success (tag : List Char)
    (hg : DockerParser.dockerTagTest tag = true)
    (hs : DockerParser.specialTags.contains (tag.map toLowerChar) = false)
    (hv : DockerParser.dockerVersionMatch tag = none) :
    ParserRegistry.parse tag VersionType.docker =
      { isValid := true, version := DockerParser.rootOf tag,
        info := ⟨[], [], [], (DockerParser.afterDash tag).getD [], []⟩,
        format := some VersionType.docker } := by
  show DockerParser.parse tag = _
  unfold DockerParser.parse
  rw [if_neg (by rw [hs]; simp), hv, if_neg (by rw [hg]; simp)]
  unfold createSuccessResult DockerParser.reconstructVersion
  rw [if_neg (by rw [hs]; simp)]
  rfl

/-- C8 (witness): `parse("my-custom-tag-v2", DOCKER)` succeeds with
`version = "my"` and `prerelease = "custom-tag-v2"`. -/
theorem docker_opaque_success_witness :
    (DockerParser.dockerTagTest "my-custom-tag-v2".data = true ∧
     DockerParser.specialTags.contains ("my-custom-tag-v2".data.map toLowerChar) = false ∧
     DockerParser.dockerVersionMatch "my-custom-tag-v2".data = none) ∧
    ParserRegistry.parse "my-custom-tag-v2".data VersionType.docker =
      { isValid := true, version := "my".data,
        info := ⟨[], [], [], "custom-tag-v2".data, []⟩,
        format := some VersionType.docker } :=
  ⟨⟨by decide, by decide, by decide⟩,
   (docker_opaque_success "my-custom-tag-v2".data (by decide) (by decide)
      (by decide)).trans (by decide)⟩

/-- C9: determinism — two parse calls with identical tag and scheme inputs
return identical ParseResult values (the embedding is a pure function). -/
theorem parse_deterministic (t₁ t₂ : List Char) (s₁ s₂ : VersionType)
    (ht : t₁ = t₂) (hs : s₁ = s₂) :
    ParserRegistry.parse t₁ s₁ = ParserRegistry.parse t₂ s₂ := by
  rw [ht, hs]

/-- C9 (witness): two calls on `("v1.2.3", AUTO)` agree. -/
theorem parse_deterministic_witness :
    ParserRegistry.parse "v1.2.3".data VersionType.auto =
      ParserRegistry.parse "v1.2.3".data VersionType.auto :=
  parse_deterministic "v1.2.3".data "v1.2.3".data VersionType.auto VersionType.auto
    rfl rfl

/-- C10: for every tag, `DockerParser.parse` succeeds exactly when
`DockerParser.canParse` accepts: the validity bit of `parse` equals
`canParse`. -/
theorem docker_parse_valid_iff_canParse (tag : List Char) :
    (DockerParser.parse tag).isValid = DockerParser.canParse tag := by
  unfold DockerParser.parse DockerParser.canParse
  by_cases h1 : DockerParser.specialTags.contains (tag.map toLowerChar) = true
  · rw [if_pos h1, h1]
    simp [createSuccessResult]
  · simp only [Bool.not_eq_true] at h1
    rw [if_neg (by rw [h1]; simp), h1]
    cases hm : DockerParser.dockerVersionMatch tag with
    | some x =>
      obtain ⟨a, b, c, d⟩ := x
      simp [createSuccessResult]
    | none =>
      by_cases h2 : DockerParser.dockerTagTest tag = true
      · rw [if_neg (by rw [h2]; simp), h2]
        simp [createSuccessResult]
      · simp only [Bool.not_eq_true] at h2
        rw [if_pos (by rw [h2]; simp), h2]
        simp [createFailedResult]

/-- C5: for a tag of the shared two-part dotted-numeric shape that the Calver
recognizer accepts (first part a plausible calendar year, with a plausible
month for 2-digit years), AUTO selects Calver and never Semver: the Semver
recognizer's `canParse` returns false on it, and the registry dispatches to
the Calver recognizer, whose result carries format CALVER. -/
theorem auto_calver_ambiguous_prefers_calver (tag : List Char)
    (h2 : twoNumericParts tag = true)
    (hc : CalverParser.canParse tag = true) :
    SemverParser.canParse tag = false ∧
    ParserRegistry.parse tag VersionType.auto = CalverParser.parse tag ∧
    (ParserRegistry.parse tag VersionType.auto).format = some VersionType.calver := by
  have hsem : SemverParser.canParse tag = false := by
    unfold SemverParser.canParse
    unfold CalverParser.canParse at hc
    cases hp : parseDotted tag with
    | none => rfl
    | some q =>
      obtain ⟨hv, parts, pre, build⟩ := q
      rw [hp] at hc
      have hcl : calverLike parts = true := hc
      simp [hcl]
  have hreg : ParserRegistry.parse tag VersionType.auto = CalverParser.parse tag := by
    unfold ParserRegistry.parse
    rw [if_neg (by rw [hsem]; simp), if_pos hc]
  refine ⟨hsem, hreg, ?_⟩
  rw [hreg]
  exact calver_parse_format tag hc

/-- C5 (witness): `"24.01"` is two-part numeric, Calver accepts it, and AUTO
resolves it to the Calver recognizer with format CALVER while Semver's
`canParse` rejects it. -/
theorem auto_calver_ambiguous_prefers_calver_witness :
    (twoNumericParts "24.01".data = true ∧
     CalverParser.canParse "24.01".data = true) ∧
    (SemverParser.canParse "24.01".data = false ∧
     ParserRegistry.parse "24.01".data VersionType.auto =
       CalverParser.parse "24.01".data ∧
     (ParserRegistry.parse "24.01".data VersionType.auto).format =
       some VersionType.calver) :=
  ⟨⟨by decide, by decide⟩,
   auto_calver_ambiguous_prefers_calver "24.01".data (by decide) (by decide)⟩

end TagValidate
